import Mathlib

/-!
Verification of the taskr CLI task manager (src/taskr.py).

The program is a sequential, file-backed CRUD tool.  We embed it shallowly:

* a task record (`Task`) mirrors the JSON task objects built by `add_task`;
* the tasks document on disk is `TasksFile`: absent, present-but-unparsable,
  or a stored list of tasks (`save_tasks` always writes the full list, so a
  well-formed document is exactly a stored list);
* each `TaskManager` operation becomes a pure function from the disk state
  (plus the truthiness of `config.get("autosave", True)`, and the values
  returned by the `datetime.now().isoformat()` calls it makes, passed in as
  explicit arguments in call order) to an `OpResult` holding the new disk
  state, the in-memory task list after the operation, and the messages
  printed;
* the configuration document is `ConfigFile` with a small JSON value type
  `JVal`; `config_setup` catches exactly `json.JSONDecodeError`, which the
  embedding reflects by distinguishing unparsable documents from parsable
  ones of any JSON shape;
* attribute lookup on the `TaskManager` instance is modelled by membership
  in the list of attributes the class actually defines, so that a call to a
  method the class lacks evaluates to an `AttributeError`, as in Python.
-/

namespace Taskr

/-- A task record, as built by `TaskManager.add_task` (src/taskr.py lines
60-66): id, description, status, created_time, updated_time.  Timestamps are
the strings produced by `datetime.now().isoformat()`. -/
structure Task where
  id : Nat
  description : String
  status : String
  created_time : String
  updated_time : String
  deriving Repr, DecidableEq

/-- The on-disk tasks.json document.  `absent`: the file does not exist.
`corrupt`: the file exists but `json.load` raises `JSONDecodeError`.
`stored ts`: the file holds the JSON serialization of the task list `ts`
(the only content `save_tasks` ever writes). -/
inductive TasksFile
  | absent
  | corrupt
  | stored (tasks : List Task)
  deriving Repr, DecidableEq

def msgNoTasks : String := "[Taskr] No existing tasks found. Starting fresh."
def msgCorrupt : String := "[Taskr] Tasks file is empty or corrupted. Starting fresh."
def msgLoaded : String := "[Taskr] Tasks loaded successfully."
def msgSaved : String := "[Taskr] Tasks saved successfully."
def msgInvalidStatus : String :=
  "[Taskr] Invalid status. Valid options are: not started, in progress, review, done."
def msgNotFound (task_id : Nat) : String :=
  "[Taskr] Task " ++ toString task_id ++ " not found"
def msgRemoved (task_id : Nat) : String :=
  "[Taskr] Task " ++ toString task_id ++ " removed"
def msgAdded (d : String) : String := "[Taskr] Task added: " ++ d
def msgUpdated (task_id : Nat) (d : String) : String :=
  "[Taskr] Task " ++ toString task_id ++ " updated to: " ++ d
def msgStatusUpdated (task_id : Nat) (s : String) : String :=
  "[Taskr] Task " ++ toString task_id ++ " status updated to: " ++ s
def msgListHint : String :=
  "[Taskr] Use --status to filter tasks by their status or --show-all to display all tasks."
def msgNoTasksAvailable : String := "[Taskr] No tasks available"

/-- `TaskManager.load_tasks` (lines 34-48): returns the parsed task list and
the notice printed.  Absent document: empty list, fresh-start notice.
Unparsable document: empty list, corrupted notice.  Otherwise the stored
list with a success notice.  Total: no error propagates to the caller. -/
def load_tasks : TasksFile → List Task × String
  | .absent => ([], msgNoTasks)
  | .corrupt => ([], msgCorrupt)
  | .stored ts => (ts, msgLoaded)

/-- The task list a disk state parses to (first component of `load_tasks`). -/
def tasksOnDisk (f : TasksFile) : List Task := (load_tasks f).1

/-- `TaskManager.save_tasks` (lines 50-55): overwrites the document with the
serialization of the given list. -/
def save_tasks (ts : List Task) : TasksFile := .stored ts

/-- Result of one task operation: the disk state afterwards, the in-memory
task list the operation ended with, and the messages printed in order. -/
structure OpResult where
  file : TasksFile
  tasks : List Task
  msgs : List String
  deriving Repr, DecidableEq

/-- `TaskManager.add_task` (lines 57-70).  `t1` and `t2` are the values of
the two successive `datetime.now().isoformat()` calls (line 64 for
created_time, line 65 for updated_time).  `autosave` is the truthiness of
`config.get("autosave", True)`. -/
def add_task (autosave : Bool) (t1 t2 : String) (d : String) (f : TasksFile) : OpResult :=
  let ts := (load_tasks f).1
  let lmsg := (load_tasks f).2
  let task : Task := ⟨ts.length + 1, d, "not started", t1, t2⟩
  let ts2 := ts ++ [task]
  if autosave then ⟨save_tasks ts2, ts2, [lmsg, msgAdded d, msgSaved]⟩
  else ⟨f, ts2, [lmsg, msgAdded d]⟩

/-- The in-place reassignment loop of `TaskManager.remove_task` (lines
80-81): `for index, task in enumerate(tasks): task['id'] = index + 1`,
started at `n = 1`. -/
def renumberFrom : Nat → List Task → List Task
  | _, [] => []
  | n, t :: ts => { t with id := n } :: renumberFrom (n + 1) ts

/-- `TaskManager.remove_task` (lines 72-85): filter out tasks with the given
id; if anything was removed, renumber survivors densely from 1 and save when
autosave; otherwise report not found and write nothing. -/
def remove_task (autosave : Bool) (task_id : Nat) (f : TasksFile) : OpResult :=
  let ts := (load_tasks f).1
  let lmsg := (load_tasks f).2
  let ts2 := ts.filter (fun t => t.id != task_id)
  if ts2.length < ts.length then
    let ts3 := renumberFrom 1 ts2
    if autosave then ⟨save_tasks ts3, ts3, [lmsg, msgRemoved task_id, msgSaved]⟩
    else ⟨f, ts3, [lmsg, msgRemoved task_id]⟩
  else ⟨f, ts2, [lmsg, msgNotFound task_id]⟩

/-- The lookup loop of `TaskManager.update_task` (lines 90-97): walk the
list, mutate the first task whose id matches (new description, refreshed
updated_time) and stop; report whether a match was found. -/
def updateFirstTask (task_id : Nat) (d now : String) : List Task → List Task × Bool
  | [] => ([], false)
  | t :: ts =>
    if t.id = task_id then ({ t with description := d, updated_time := now } :: ts, true)
    else
      let r := updateFirstTask task_id d now ts
      (t :: r.1, r.2)

/-- `TaskManager.update_task` (lines 87-98).  `now` is the value of the
`datetime.now().isoformat()` call on line 93. -/
def update_task (autosave : Bool) (now : String) (task_id : Nat) (d : String)
    (f : TasksFile) : OpResult :=
  let ts := (load_tasks f).1
  let lmsg := (load_tasks f).2
  let r := updateFirstTask task_id d now ts
  if r.2 then
    if autosave then ⟨save_tasks r.1, r.1, [lmsg, msgUpdated task_id d, msgSaved]⟩
    else ⟨f, r.1, [lmsg, msgUpdated task_id d]⟩
  else ⟨f, ts, [lmsg, msgNotFound task_id]⟩

/-- The lookup loop of `TaskManager.change_task_status` (lines 107-114):
mutate the first task whose id matches (new status, refreshed updated_time)
and stop; report whether a match was found. -/
def setFirstStatus (task_id : Nat) (s now : String) : List Task → List Task × Bool
  | [] => ([], false)
  | t :: ts =>
    if t.id = task_id then ({ t with status := s, updated_time := now } :: ts, true)
    else
      let r := setFirstStatus task_id s now ts
      (t :: r.1, r.2)

/-- The closed status enumeration checked on line 103. -/
def validStatuses : List String := ["not started", "in progress", "review", "done"]

/-- `TaskManager.change_task_status` (lines 100-115): load, then reject a
status outside the enumeration before the id lookup; otherwise behave like
`update_task` but on the status field.  `now` is the value of the
`datetime.now().isoformat()` call on line 110. -/
def change_task_status (autosave : Bool) (now : String) (task_id : Nat) (s : String)
    (f : TasksFile) : OpResult :=
  let ts := (load_tasks f).1
  let lmsg := (load_tasks f).2
  if s ∈ validStatuses then
    let r := setFirstStatus task_id s now ts
    if r.2 then
      if autosave then ⟨save_tasks r.1, r.1, [lmsg, msgStatusUpdated task_id s, msgSaved]⟩
      else ⟨f, r.1, [lmsg, msgStatusUpdated task_id s]⟩
    else ⟨f, ts, [lmsg, msgNotFound task_id]⟩
  else ⟨f, ts, [lmsg, msgInvalidStatus]⟩

/-- Python truthiness of the optional `status` argument of `list_tasks`:
`None` and the empty string are falsy. -/
def truthy : Option String → Bool
  | none => false
  | some s => s != ""

/-- Python equality `task['status'] == status` where `status` may be `None`
(a string never equals `None`). -/
def statusMatches : Option String → String → Bool
  | none, _ => false
  | some s, x => x == s

/-- `TaskManager.list_tasks` (lines 117-131): with a falsy status and
`show_all` unset, print only the usage hint and produce no listing (`none`);
otherwise list every task when `show_all`, else those matching the filter,
with a notice when the result is empty. -/
def list_tasks (status : Option String) (show_all : Bool) (f : TasksFile) :
    Option (List Task) × List String :=
  let ts := (load_tasks f).1
  let lmsg := (load_tasks f).2
  if !truthy status && !show_all then (none, [lmsg, msgListHint])
  else
    let filtered := if show_all then ts else ts.filter (fun t => statusMatches status t.status)
    if filtered.isEmpty then (some filtered, [lmsg, msgNoTasksAvailable])
    else (some filtered, [lmsg])

/-- A JSON value, as returned by `json.load` on the configuration document:
a key/value mapping, or any other JSON shape (array, string, number,
boolean, null). -/
inductive JVal
  | obj (kvs : List (String × JVal))
  | arr (xs : List JVal)
  | str (s : String)
  | num (n : Int)
  | boolean (b : Bool)
  | null

/-- `TaskManager.DEFAULT_CONFIG` (lines 9-11). -/
def DEFAULT_CONFIG : JVal := .obj [("autosave", .boolean true)]

/-- The on-disk config.json document.  `absent`: no file.  `unparsable`:
the file exists but `json.load` raises `JSONDecodeError` (empty or invalid
JSON text).  `parsed v`: the file parses to the JSON value `v`, mapping or
not. -/
inductive ConfigFile
  | absent
  | unparsable
  | parsed (v : JVal)

/-- Result of `config_setup`: the config document afterwards, the active
in-memory configuration, and the notices printed. -/
structure ConfigResult where
  file : ConfigFile
  config : JVal
  msgs : List String

def msgConfigCreated : String := "[Taskr] Config file created with default values."
def msgConfigInvalid : String := "[Taskr] Config file was invalid or empty. Defaults written."

/-- `TaskManager.config_setup` (lines 17-32): if the file is absent, write
the default mapping and print a creation notice; then read it.  A read that
raises `JSONDecodeError` overwrites the file with the default mapping and
uses it in memory.  Any parsable JSON value, mapping or not, is adopted
as the active configuration unchanged. -/
def config_setup : ConfigFile → ConfigResult
  | .absent => ⟨.parsed DEFAULT_CONFIG, DEFAULT_CONFIG, [msgConfigCreated]⟩
  | .unparsable => ⟨.parsed DEFAULT_CONFIG, DEFAULT_CONFIG, [msgConfigInvalid]⟩
  | .parsed v => ⟨.parsed v, v, []⟩

/-- The attributes the `TaskManager` class defines (class body, lines 7-131,
plus the instance attributes set in `__init__`).  Python attribute lookup on
a manager instance succeeds exactly for these names. -/
def taskManagerAttrs : List String :=
  ["DEFAULT_CONFIG", "config", "base_path", "config_setup", "load_tasks", "save_tasks",
   "add_task", "remove_task", "update_task", "change_task_status", "list_tasks"]

/-- Outcome of a dispatched CLI config command: normal completion with the
messages printed, or an uncaught `AttributeError` naming the missing
attribute. -/
inductive ConfigCmdResult
  | ok (msgs : List String)
  | attributeError (attr : String)
  deriving Repr, DecidableEq

/-- Python method call `manager.<attr>(...)`: attribute lookup first; a name
the class does not define raises `AttributeError` before any body could run
(the continuation is unreachable in that case). -/
def callMethod (attr : String) (run : Unit → ConfigCmdResult) : ConfigCmdResult :=
  if attr ∈ taskManagerAttrs then run () else .attributeError attr

/-- `handle_config_commands` (lines 148-155): dispatches `view` to
`manager.view_config()` and `update` to `manager.update_config(key, value)`;
anything else prints an invalid-command notice.  The class defines neither
`view_config` nor `update_config`, so for those branches the continuation
passed to `callMethod` is never reached; it is given as normal completion
with no messages, which attribute lookup cuts off. -/
def handle_config_commands (config_command key value : String) : ConfigCmdResult :=
  if config_command == "view" then callMethod "view_config" (fun _ => .ok [])
  else if config_command == "update" then callMethod "update_config" (fun _ => .ok [])
  else .ok ["[Taskr] Invalid config command. Use view or update."]

/-- A single mutating task operation with the timestamp strings its
`datetime.now().isoformat()` calls return, in call order. -/
inductive MOp
  | add (d t1 t2 : String)
  | remove (task_id : Nat)
  | update (task_id : Nat) (d now : String)
  | status (task_id : Nat) (s now : String)
  deriving Repr, DecidableEq

/-- Dispatch of one mutating operation, as `handle_task_commands` does
(lines 134-145). -/
def applyMOp (autosave : Bool) (op : MOp) (f : TasksFile) : OpResult :=
  match op with
  | .add d t1 t2 => add_task autosave t1 t2 d f
  | .remove i => remove_task autosave i f
  | .update i d now => update_task autosave now i d f
  | .status i s now => change_task_status autosave now i s f

/-- Disk state after a sequence of operations, each run as its own CLI
invocation: every operation re-loads from the document the previous one
left. -/
def applyMOps (autosave : Bool) : List MOp → TasksFile → TasksFile
  | [], f => f
  | op :: ops, f => applyMOps autosave ops (applyMOp autosave op f).file

/-- Whether the operation actually mutates the loaded task list: `add`
always does; `remove` and `update` only when some task has the id; a status
change only when the status is in the enumeration and some task has the
id. -/
def mutates (op : MOp) (f : TasksFile) : Bool :=
  let ts := (load_tasks f).1
  match op with
  | .add _ _ _ => true
  | .remove i => ts.any (fun t => t.id == i)
  | .update i _ _ => ts.any (fun t => t.id == i)
  | .status i s _ => decide (s ∈ validStatuses) && ts.any (fun t => t.id == i)

/-- The in-memory task list an operation ends with (independent of the
autosave flag, which only gates saving). -/
def mutatedSeq (op : MOp) (f : TasksFile) : List Task := (applyMOp true op f).tasks

/-- Whether the operation is an add or a remove. -/
def MOp.addRemove : MOp → Bool
  | .add _ _ _ => true
  | .remove _ => true
  | _ => false

/-- The ids of the tasks form exactly 1..N in list order. -/
def contiguousIds (ts : List Task) : Prop :=
  ts.map Task.id = List.range' 1 ts.length

instance (ts : List Task) : Decidable (contiguousIds ts) := by
  unfold contiguousIds; infer_instance

/-! Helper lemmas about the loop bodies. -/

theorem renumberFrom_map_id (n : Nat) (ts : List Task) :
    (renumberFrom n ts).map Task.id = List.range' n ts.length := by
  induction ts generalizing n with
  | nil => simp [renumberFrom]
  | cons t ts ih => simp [renumberFrom, List.range'_succ, ih]

theorem renumberFrom_length (n : Nat) (ts : List Task) :
    (renumberFrom n ts).length = ts.length := by
  induction ts generalizing n with
  | nil => simp [renumberFrom]
  | cons t ts ih => simp [renumberFrom, ih]

theorem renumberFrom_contiguous (ts : List Task) : contiguousIds (renumberFrom 1 ts) := by
  unfold contiguousIds
  rw [renumberFrom_length, renumberFrom_map_id]

theorem filter_length_lt_iff_any (i : Nat) (ts : List Task) :
    ((ts.filter (fun t => t.id != i)).length < ts.length) ↔
      ts.any (fun t => t.id == i) = true := by
  induction ts with
  | nil => simp
  | cons t ts ih =>
    by_cases h : t.id = i
    · simp only [List.filter, List.any_cons, h, bne_self_eq_false, beq_self_eq_true,
        Bool.true_or, List.length_cons, iff_true]
      exact Nat.lt_succ_of_le (List.length_filter_le _ _)
    · have hb : (t.id != i) = true := by simpa using h
      simp [List.filter_cons, List.any_cons, hb, h, ih, Nat.succ_lt_succ_iff]

theorem updateFirstTask_snd (task_id : Nat) (d now : String) (ts : List Task) :
    (updateFirstTask task_id d now ts).2 = ts.any (fun t => t.id == task_id) := by
  induction ts with
  | nil => rfl
  | cons t ts ih => by_cases h : t.id = task_id <;> simp [updateFirstTask, h, ih]

theorem setFirstStatus_snd (task_id : Nat) (s now : String) (ts : List Task) :
    (setFirstStatus task_id s now ts).2 = ts.any (fun t => t.id == task_id) := by
  induction ts with
  | nil => rfl
  | cons t ts ih => by_cases h : t.id = task_id <;> simp [setFirstStatus, h, ih]

theorem updateFirstTask_not_found (task_id : Nat) (d now : String) (ts : List Task)
    (h : ∀ t ∈ ts, t.id ≠ task_id) :
    updateFirstTask task_id d now ts = (ts, false) := by
  induction ts with
  | nil => rfl
  | cons t ts ih =>
    have ht : t.id ≠ task_id := h t (List.mem_cons_self t ts)
    have ih2 := ih (fun u hu => h u (List.mem_cons_of_mem t hu))
    simp [updateFirstTask, ht, ih2]

theorem setFirstStatus_not_found (task_id : Nat) (s now : String) (ts : List Task)
    (h : ∀ t ∈ ts, t.id ≠ task_id) :
    setFirstStatus task_id s now ts = (ts, false) := by
  induction ts with
  | nil => rfl
  | cons t ts ih =>
    have ht : t.id ≠ task_id := h t (List.mem_cons_self t ts)
    have ih2 := ih (fun u hu => h u (List.mem_cons_of_mem t hu))
    simp [setFirstStatus, ht, ih2]

theorem updateFirstTask_found (task_id : Nat) (d now : String) (ts : List Task)
    (h : ∃ t ∈ ts, t.id = task_id) :
    ∃ j, ∃ hj : j < ts.length,
      (ts.get ⟨j, hj⟩).id = task_id ∧
      updateFirstTask task_id d now ts =
        (ts.set j { ts.get ⟨j, hj⟩ with description := d, updated_time := now }, true) := by
  induction ts with
  | nil => simp at h
  | cons t ts ih =>
    by_cases ht : t.id = task_id
    · exact ⟨0, Nat.succ_pos _, ht, by simp [updateFirstTask, ht]⟩
    · obtain ⟨u, hu, hid⟩ := h
      rcases List.mem_cons.mp hu with rfl | hu2
      · exact absurd hid ht
      · obtain ⟨j, hj, hjid, heq⟩ := ih ⟨u, hu2, hid⟩
        refine ⟨j + 1, Nat.succ_lt_succ hj, by simpa using hjid, ?_⟩
        simp [updateFirstTask, ht, heq]

/-! Claim theorems. -/

/-- C2: the CLI `config update <key> <value>` path does not complete
normally for any key and value: `handle_config_commands` dispatches to
`manager.update_config(key, value)`, but the `TaskManager` class defines no
`update_config` attribute, so the call raises an uncaught `AttributeError`
instead of mutating and serializing the configuration. -/
theorem config_update_attribute_error (key value : String) :
    handle_config_commands "update" key value = .attributeError "update_config" := rfl

/-- C4 counterexample: a configuration document holding valid JSON that is
not a key/value mapping (the empty array).  `config_setup` adopts the array
as the active configuration instead of the default mapping and does not
overwrite the document, contradicting the claim that every non-mapping read
yields the default mapping in memory and on disk. -/
theorem config_setup_non_mapping_kept :
    (config_setup (.parsed (.arr []))).config = JVal.arr [] ∧
    JVal.arr [] ≠ DEFAULT_CONFIG ∧
    (config_setup (.parsed (.arr []))).file = ConfigFile.parsed (.arr []) :=
  ⟨rfl, fun h => JVal.noConfusion h, rfl⟩

/-- C4 amended: `config_setup` never raises (it is a total function of the
document state); when the document is missing, empty, or not parseable as
JSON, the default mapping becomes the active configuration and is written
to disk; but any parsable JSON value — a key/value mapping or not — is
adopted as the active configuration unchanged with the document left as it
is. -/
theorem config_setup_cases (f : ConfigFile) :
    ((f = .absent ∨ f = .unparsable) →
      (config_setup f).config = DEFAULT_CONFIG ∧
      (config_setup f).file = .parsed DEFAULT_CONFIG) ∧
    (∀ v, f = .parsed v →
      (config_setup f).config = v ∧ (config_setup f).file = f) := by
  cases f with
  | absent => exact ⟨fun _ => ⟨rfl, rfl⟩, fun v hv => ConfigFile.noConfusion hv⟩
  | unparsable => exact ⟨fun _ => ⟨rfl, rfl⟩, fun v hv => ConfigFile.noConfusion hv⟩
  | parsed v =>
    refine ⟨fun h => ?_, fun w hw => by cases hw; exact ⟨rfl, rfl⟩⟩
    rcases h with h | h <;> exact ConfigFile.noConfusion h

/-- Witness for the C4 amended theorem at the unparsable document. -/
theorem config_setup_cases_witness :
    (config_setup .unparsable).config = DEFAULT_CONFIG ∧
    (config_setup .unparsable).file = .parsed DEFAULT_CONFIG :=
  (config_setup_cases .unparsable).1 (Or.inr rfl)

/-- C5: a status outside the enumeration is rejected with the validation
notice; the disk state is unchanged (no write happens), and the in-memory
task list is exactly the loaded one, so no task status or updated_time is
touched — for every store, id, and autosave setting.  In the source the
validation on line 103 precedes the id-lookup loop. -/
theorem invalid_status_rejected (autosave : Bool) (now : String) (task_id : Nat)
    (s : String) (f : TasksFile) (h : s ∉ validStatuses) :
    change_task_status autosave now task_id s f =
      ⟨f, (load_tasks f).1, [(load_tasks f).2, msgInvalidStatus]⟩ := by
  simp [change_task_status, h]

/-- Witness for C5 at the status string bogus on a one-task store. -/
theorem invalid_status_rejected_witness :
    ("bogus" ∉ validStatuses) ∧
    change_task_status true "t" 1 "bogus" (.stored [⟨1, "a", "not started", "c", "u"⟩]) =
      ⟨.stored [⟨1, "a", "not started", "c", "u"⟩],
        [⟨1, "a", "not started", "c", "u"⟩], [msgLoaded, msgInvalidStatus]⟩ :=
  ⟨by decide, invalid_status_rejected true "t" 1 "bogus" _ (by decide)⟩

/-- C7: `load_tasks` is total (no error reaches the caller) and returns the
empty sequence with the fresh-start notice when the document is absent, the
empty sequence with the corrupted notice when it fails to parse, and the
stored task sequence otherwise. -/
theorem load_tasks_total_spec :
    load_tasks .absent = ([], msgNoTasks) ∧
    load_tasks .corrupt = ([], msgCorrupt) ∧
    ∀ ts, load_tasks (.stored ts) = (ts, msgLoaded) :=
  ⟨rfl, rfl, fun _ => rfl⟩

/-- C8 counterexample: `add_task` reads the clock twice (lines 64 and 65),
once for created_time and once for updated_time.  When the clock advances
between the reads the new task has created_time different from
updated_time, contradicting the claim that both equal the current time. -/
theorem add_task_two_clock_reads :
    (add_task true "2024-01-01T00:00:00.000001" "2024-01-01T00:00:00.000002"
        "Write spec" .absent).tasks =
      [⟨1, "Write spec", "not started", "2024-01-01T00:00:00.000001",
        "2024-01-01T00:00:00.000002"⟩] ∧
    ("2024-01-01T00:00:00.000001" : String) ≠ "2024-01-01T00:00:00.000002" :=
  ⟨rfl, by decide⟩

/-- C8 amended: for every description, autosave setting, and loaded task
sequence of length N, `add_task` appends exactly one task with id = N + 1,
the given description, status not started, created_time the first clock
reading and updated_time the second clock reading of the operation (equal
exactly when the clock does not advance between them), leaving all
previously existing tasks unchanged. -/
theorem add_task_appends (autosave : Bool) (t1 t2 d : String) (f : TasksFile) :
    (add_task autosave t1 t2 d f).tasks =
      (load_tasks f).1 ++ [⟨(load_tasks f).1.length + 1, d, "not started", t1, t2⟩] := by
  cases autosave <;> simp [add_task]

/-- C10: when `show_all` is set, `list_tasks` lists every task in the store
whatever the status filter is — the filter only applies when `show_all` is
unset. -/
theorem show_all_overrides_filter (s : String) (f : TasksFile) :
    (list_tasks (some s) true f).1 = some (tasksOnDisk f) := by
  unfold list_tasks tasksOnDisk
  simp only [Bool.not_true, Bool.and_false, Bool.false_eq_true, if_false, if_true]
  split <;> rfl

/-- One add or remove step with autosave enabled keeps the document a stored
list with contiguous ids: add extends 1..N to 1..N+1, a matched remove
renumbers survivors to 1..N, an unmatched remove writes nothing. -/
theorem applyMOp_stored_contiguous (op : MOp) (ts : List Task)
    (hc : contiguousIds ts) (hop : op.addRemove = true) :
    ∃ ts2, (applyMOp true op (.stored ts)).file = .stored ts2 ∧ contiguousIds ts2 := by
  cases op with
  | add d t1 t2 =>
    refine ⟨ts ++ [⟨ts.length + 1, d, "not started", t1, t2⟩], ?_, ?_⟩
    · simp [applyMOp, add_task, load_tasks, save_tasks]
    · unfold contiguousIds at hc ⊢
      simp [hc, List.range'_concat, Nat.add_comm]
  | remove i =>
    by_cases h : ((load_tasks (.stored ts)).1.filter (fun t => t.id != i)).length <
        (load_tasks (.stored ts)).1.length
    · refine ⟨renumberFrom 1 (ts.filter (fun t => t.id != i)), ?_,
        renumberFrom_contiguous _⟩
      simp only [applyMOp, remove_task, save_tasks]
      rw [if_pos h]
      rfl
    · refine ⟨ts, ?_, hc⟩
      simp only [applyMOp, remove_task]
      rw [if_neg h]
  | update i d now => simp [MOp.addRemove] at hop
  | status i s now => simp [MOp.addRemove] at hop

/-- A sequence of add/remove steps with autosave enabled keeps the document
a stored list with contiguous ids. -/
theorem applyMOps_stored_contiguous (ops : List MOp) (ts0 : List Task)
    (hc : contiguousIds ts0) (hops : ∀ op ∈ ops, op.addRemove = true) :
    ∃ ts2, applyMOps true ops (.stored ts0) = .stored ts2 ∧ contiguousIds ts2 := by
  induction ops generalizing ts0 with
  | nil => exact ⟨ts0, rfl, hc⟩
  | cons op ops ih =>
    obtain ⟨ts1, hfile, hc1⟩ :=
      applyMOp_stored_contiguous op ts0 hc (hops op (List.mem_cons_self op ops))
    have := ih ts1 hc1 (fun o ho => hops o (List.mem_cons_of_mem op ho))
    simpa [applyMOps, hfile] using this

/-- C1: starting from an on-disk task sequence whose ids form 1..N in list
order, any sequence of add and remove operations run with autosave enabled
leaves the surviving tasks on disk with ids forming exactly 1..N in list
order again (N the surviving count): add assigns id = count + 1 and a
matched remove renumbers all survivors densely from 1. -/
theorem ids_contiguous_after_ops (ts0 : List Task) (ops : List MOp)
    (hc : contiguousIds ts0) (hops : ∀ op ∈ ops, op.addRemove = true) :
    contiguousIds (tasksOnDisk (applyMOps true ops (.stored ts0))) := by
  obtain ⟨ts2, he, hc2⟩ := applyMOps_stored_contiguous ops ts0 hc hops
  rw [he]
  exact hc2

/-- Witness for C1: one add then one remove on a one-task store. -/
theorem ids_contiguous_after_ops_witness :
    contiguousIds [⟨1, "a", "not started", "t", "t"⟩] ∧
    (∀ op ∈ [MOp.add "b" "t1" "t2", MOp.remove 1], op.addRemove = true) ∧
    contiguousIds (tasksOnDisk (applyMOps true [MOp.add "b" "t1" "t2", MOp.remove 1]
      (.stored [⟨1, "a", "not started", "t", "t"⟩]))) :=
  ⟨by decide, by decide, ids_contiguous_after_ops _ _ (by decide) (by decide)⟩

/-- C3 counterexample: with autosave enabled, removing id 1 from an absent
document finds nothing and writes nothing, so afterwards there is still no
on-disk document — it does not equal the serialization of the (empty)
mutated task sequence, contradicting the claim for not-found operations. -/
theorem autosave_true_not_found_no_write :
    (applyMOp true (.remove 1) .absent).file = .absent ∧
    mutatedSeq (.remove 1) .absent = [] ∧
    TasksFile.absent ≠ save_tasks (mutatedSeq (.remove 1) .absent) := by
  refine ⟨rfl, rfl, ?_⟩
  intro h
  exact TasksFile.noConfusion h

/-- C3 amended: for every initial document and every single add, update,
remove, or status-change operation, with autosave false the on-disk
document is unchanged (no write occurs); with autosave true (the value also
taken when the key is absent, via `config.get` with default `True`), the
document equals the serialization of the mutated task sequence whenever the
operation actually mutates it (add always; remove/update when the id
matches; status-change when the status is valid and the id matches), and is
unchanged otherwise. -/
theorem autosave_gating (op : MOp) (f : TasksFile) :
    (applyMOp false op f).file = f ∧
    (applyMOp true op f).file =
      (if mutates op f then save_tasks (mutatedSeq op f) else f) := by
  constructor
  · cases op with
    | add d t1 t2 => simp [applyMOp, add_task]
    | remove i => simp only [applyMOp, remove_task]; split <;> rfl
    | update i d now => simp only [applyMOp, update_task]; split <;> rfl
    | status i s now =>
      simp only [applyMOp, change_task_status]
      split
      · split <;> rfl
      · rfl
  · cases op with
    | add d t1 t2 => simp [applyMOp, add_task, mutates, mutatedSeq]
    | remove i =>
      by_cases h : ((load_tasks f).1.filter (fun t => t.id != i)).length <
          (load_tasks f).1.length
      · have ha : (load_tasks f).1.any (fun t => t.id == i) = true :=
          (filter_length_lt_iff_any i (load_tasks f).1).mp h
        simp only [applyMOp, remove_task, mutates, mutatedSeq, ha, if_pos h, if_true]
      · have ha : (load_tasks f).1.any (fun t => t.id == i) = false := by
          rcases Bool.eq_false_or_eq_true ((load_tasks f).1.any (fun t => t.id == i))
            with hb | hb
          · exact absurd ((filter_length_lt_iff_any i (load_tasks f).1).mpr hb) h
          · exact hb
        simp only [applyMOp, remove_task, mutates, ha, if_neg h, Bool.false_eq_true,
          if_false]
    | update i d now =>
      by_cases h : (load_tasks f).1.any (fun t => t.id == i) = true
      · have hr : (updateFirstTask i d now (load_tasks f).1).2 = true := by
          rw [updateFirstTask_snd]; exact h
        simp only [applyMOp, update_task, mutates, mutatedSeq, h, hr, if_true]
      · have hr : (updateFirstTask i d now (load_tasks f).1).2 = false := by
          rw [updateFirstTask_snd]; exact Bool.eq_false_iff.mpr h
        simp only [applyMOp, update_task, mutates, h, hr, Bool.false_eq_true, if_false]
    | status i s now =>
      by_cases hs : s ∈ validStatuses
      · by_cases h : (load_tasks f).1.any (fun t => t.id == i) = true
        · have hr : (setFirstStatus i s now (load_tasks f).1).2 = true := by
            rw [setFirstStatus_snd]; exact h
          simp only [applyMOp, change_task_status, mutates, mutatedSeq, hs, h, hr,
            if_true, decide_True, Bool.true_and]
        · have hr : (setFirstStatus i s now (load_tasks f).1).2 = false := by
            rw [setFirstStatus_snd]; exact Bool.eq_false_iff.mpr h
          simp only [applyMOp, change_task_status, mutates, hs, h, hr, if_true,
            decide_True, Bool.true_and, Bool.false_eq_true, if_false]
      · simp only [applyMOp, change_task_status, mutates, hs, if_false, decide_False,
          Bool.false_and, Bool.false_eq_true]

/-- C6: when no task in the store has the given id, remove, update, and
status-change (with a valid status) each report the not-found notice and do
nothing else: the disk state is unchanged (nothing written, whatever the
autosave setting) and the in-memory list is exactly the loaded one. -/
theorem not_found_no_action (autosave : Bool) (now d : String) (task_id : Nat)
    (s : String) (f : TasksFile) (hs : s ∈ validStatuses)
    (h : ∀ t ∈ (load_tasks f).1, t.id ≠ task_id) :
    remove_task autosave task_id f =
        ⟨f, (load_tasks f).1, [(load_tasks f).2, msgNotFound task_id]⟩ ∧
    update_task autosave now task_id d f =
        ⟨f, (load_tasks f).1, [(load_tasks f).2, msgNotFound task_id]⟩ ∧
    change_task_status autosave now task_id s f =
        ⟨f, (load_tasks f).1, [(load_tasks f).2, msgNotFound task_id]⟩ := by
  have hfil : (load_tasks f).1.filter (fun t => t.id != task_id) = (load_tasks f).1 :=
    List.filter_eq_self.mpr (fun t ht => by simpa using h t ht)
  refine ⟨?_, ?_, ?_⟩
  · simp [remove_task, hfil]
  · simp [update_task, updateFirstTask_not_found task_id d now _ h]
  · simp [change_task_status, hs, setFirstStatus_not_found task_id s now _ h]

/-- Witness for C6: id 99 on a store holding only id 1, status done. -/
theorem not_found_no_action_witness :
    ("done" ∈ validStatuses) ∧
    (∀ t ∈ (load_tasks (.stored [⟨1, "a", "not started", "c", "u"⟩])).1, t.id ≠ 99) ∧
    remove_task true 99 (.stored [⟨1, "a", "not started", "c", "u"⟩]) =
        ⟨.stored [⟨1, "a", "not started", "c", "u"⟩],
          [⟨1, "a", "not started", "c", "u"⟩], [msgLoaded, msgNotFound 99]⟩ ∧
    update_task true "t" 99 "x" (.stored [⟨1, "a", "not started", "c", "u"⟩]) =
        ⟨.stored [⟨1, "a", "not started", "c", "u"⟩],
          [⟨1, "a", "not started", "c", "u"⟩], [msgLoaded, msgNotFound 99]⟩ ∧
    change_task_status true "t" 99 "done" (.stored [⟨1, "a", "not started", "c", "u"⟩]) =
        ⟨.stored [⟨1, "a", "not started", "c", "u"⟩],
          [⟨1, "a", "not started", "c", "u"⟩], [msgLoaded, msgNotFound 99]⟩ := by
  refine ⟨by decide, by decide, ?_⟩
  exact not_found_no_action true "t" "x" 99 "done"
    (.stored [⟨1, "a", "not started", "c", "u"⟩]) (by decide) (by decide)

/-- C9: when some task in the store has the given id, `update_task` ends
with the loaded list in which the first matching task — at some position j —
is replaced by a copy with the new description and a refreshed updated_time;
the record update keeps that task's id, status, and created_time, and
`List.set` leaves every other position untouched. -/
theorem update_task_frame (autosave : Bool) (now : String) (task_id : Nat) (d : String)
    (f : TasksFile) (h : ∃ t ∈ (load_tasks f).1, t.id = task_id) :
    ∃ j, ∃ hj : j < (load_tasks f).1.length,
      ((load_tasks f).1.get ⟨j, hj⟩).id = task_id ∧
      (update_task autosave now task_id d f).tasks =
        (load_tasks f).1.set j
          { (load_tasks f).1.get ⟨j, hj⟩ with description := d, updated_time := now } := by
  obtain ⟨j, hj, hid, heq⟩ := updateFirstTask_found task_id d now (load_tasks f).1 h
  refine ⟨j, hj, hid, ?_⟩
  cases autosave <;> simp [update_task, heq]

/-- Witness for C9: updating id 1 on a one-task store. -/
theorem update_task_frame_witness :
    ∃ j, ∃ hj : j < ([⟨1, "a", "not started", "c", "u"⟩] : List Task).length,
      (([⟨1, "a", "not started", "c", "u"⟩] : List Task).get ⟨j, hj⟩).id = 1 ∧
      (update_task true "t2" 1 "b" (.stored [⟨1, "a", "not started", "c", "u"⟩])).tasks =
        ([⟨1, "a", "not started", "c", "u"⟩] : List Task).set j
          { ([⟨1, "a", "not started", "c", "u"⟩] : List Task).get ⟨j, hj⟩ with
            description := "b", updated_time := "t2" } :=
  update_task_frame true "t2" 1 "b" (.stored [⟨1, "a", "not started", "c", "u"⟩])
    ⟨⟨1, "a", "not started", "c", "u"⟩, by decide, rfl⟩

end Taskr
